import Mathlib

/-!
# Shallow embedding of the `freesurfer_bidsapp` orchestration layer

This file embeds the orchestration logic of the BIDS-App wrapper
(`src/run.py`, `src/freesurfer/wrapper.py`) as executable Lean functions.

Modelling conventions:

* Paths are strings; `pjoin` models `pathlib`'s `/` operator on relative
  components.
* Python's truthiness test on an optional string (`if session_label:`) is
  `optTruthy`: `None` and the empty string are falsy.
* The filesystem, the BIDS layout queries, the external subprocesses
  (`recon-all`, the `segstats_jsonld.fs_to_nidm` converter) and the RDF
  parser are oracles, packaged in explicit environment records; each
  embedded function is a pure function of its environment and arguments
  that returns a record of its observable effects (return value, state
  mutation, files copied, commands built, exits).
* RDF triples are abstracted as natural numbers; a graph is the list of
  triples accumulated by parsing; `env.parse` returns `none` when
  `rdflib`'s `Graph.parse` would raise.
-/

namespace FsBidsApp

/-- Python truthiness of an optional string: `None` and `""` are falsy. -/
def optTruthy : Option String → Bool
  | none => false
  | some s => !(s == "")

/-- Join two path components with a slash (`pathlib`'s `/` on relative names). -/
def pjoin (a b : String) : String := a ++ "/" ++ b

/-- Python's `str.startswith`. -/
def pyStartsWith (s p : String) : Bool := p.data.isPrefixOf s.data

/-- Python slicing `s[n:]`. -/
def strDrop (s : String) (n : Nat) : String := String.mk (s.data.drop n)

/-- The final path component (`pathlib.PurePath.name` for the paths built here). -/
def basename (p : String) : String :=
  String.mk ((p.data.splitOn '/').getLastD [])

/-- Index of the last occurrence of `c` in `cs`, if any. -/
def lastIdxOf (c : Char) : List Char → Option Nat
  | [] => none
  | a :: rest =>
    match lastIdxOf c rest with
    | some i => some (i + 1)
    | none => if a == c then some 0 else none

/-- Python `pathlib.PurePath.suffix` on a single name component: the part of
the name from its last dot `.`, provided that dot is neither the first nor the
last character; otherwise the empty string. -/
def pySuffix (name : String) : String :=
  let cs := name.data
  match lastIdxOf '.' cs with
  | some i => if 0 < i ∧ i + 1 < cs.length then String.mk (cs.drop i) else ""
  | none => ""

/-- Python `pathlib.PurePath.with_suffix` on a single name component:
replace the `pySuffix` part by `suffix`, appending when there is none. -/
def pyWithSuffix (name suffix : String) : String :=
  let old := pySuffix name
  if old == "" then name ++ suffix
  else String.mk (name.data.take (name.data.length - old.data.length)) ++ suffix

/-- Python `str.lower` (ASCII is all that file suffixes here use). -/
def strLower (s : String) : String := String.mk (s.data.map Char.toLower)

/-- The per-subject image record stored in `FreeSurferWrapper.subject_t1_mapping`:
the dict `{'T1w_images': ..., 'session': ...}` with an optional `'T2w_images'` key. -/
structure T1Info where
  t1wImages : List String
  session : Option String
  t2wImages : Option (List String)
deriving Repr, DecidableEq

/-- `t1_info.get('T1w_images', [])`, where `none` models the empty dict `{}`. -/
def infoT1w : Option T1Info → List String
  | none => []
  | some i => i.t1wImages

/-- `t1_info.get('T2w_images', [])`, where `none` models the empty dict `{}`. -/
def infoT2w : Option T1Info → List String
  | none => []
  | some i => i.t2wImages.getD []

/-- The wrapper's `self.results` dict of processed-subject lists. -/
structure Results where
  success : List String
  failure : List String
  skipped : List String
deriving Repr, DecidableEq

/-- The mutable state of a `FreeSurferWrapper`: the results lists and the
`subject_t1_mapping` dict (insertion-ordered association list). -/
structure WrapperState where
  results : Results
  subjectT1Mapping : List (String × T1Info)
deriving Repr, DecidableEq

/-- Dict lookup in `subject_t1_mapping` (`dict.get(key, default)`). -/
def assocFind (m : List (String × T1Info)) (k : String) : Option T1Info :=
  (m.find? (fun p => p.1 == k)).map (·.2)

/-- Dict assignment `m[k] = v`: overwrite in place if the key exists, else
append (Python dicts keep insertion order). -/
def assocSet (m : List (String × T1Info)) (k : String) (v : T1Info) :
    List (String × T1Info) :=
  if (m.find? (fun p => p.1 == k)).isSome then
    m.map (fun p => if p.1 == k then (k, v) else p)
  else m ++ [(k, v)]

/-- Embedding of `FreeSurferWrapper._create_recon_all_command`
(`src/freesurfer/wrapper.py`): builds the `recon-all` argument list.
`t2w_images = none` models the Python default `t2w_images=None`. -/
def createReconAllCommand (subject_id : String) (t1w_images : List String)
    (t2w_images : Option (List String)) (session_label : Option String) :
    List String :=
  let fs_subject_id :=
    if optTruthy session_label then subject_id ++ "_ses-" ++ session_label.getD ""
    else subject_id
  ["recon-all", "-subjid", fs_subject_id]
    ++ t1w_images.flatMap (fun t1w => ["-i", t1w])
    ++ (match t2w_images with
        | some (t2 :: _) => ["-T2", t2, "-T2pial"]
        | _ => [])
    ++ ["-all"]

/-- The key under which `get_subject_t1_info` looks a subject up:
`subject_id` with `_ses-<label>` appended when the label is truthy. -/
def t1LookupKey (subject_id : String) (session_label : Option String) : String :=
  if optTruthy session_label then subject_id ++ "_ses-" ++ session_label.getD ""
  else subject_id

/-- Embedding of `FreeSurferWrapper.get_subject_t1_info`: look up the mapping
under `t1LookupKey`; `none` is the empty dict returned for unknown subjects. -/
def getSubjectT1Info (mapping : List (String × T1Info)) (subject_id : String)
    (session_label : Option String) : Option T1Info :=
  assocFind mapping (t1LookupKey subject_id session_label)

/-- Environment for `_organize_bids_output`: the filesystem oracle and the
`*.stats` glob listing (file names) of the FreeSurfer stats directory. -/
structure OrganizeEnv where
  fileExists : String → Bool
  statsGlob : List String

/-- Observable effects of `_organize_bids_output`: whether the early return
on a missing FreeSurfer subject directory was taken, and the
(source, destination) pairs actually copied by `_copy_file`. -/
structure OrganizeOutcome where
  returnedEarly : Bool
  copies : List (String × String)
deriving Repr, DecidableEq

/-- Embedding of `FreeSurferWrapper._organize_bids_output`
(`src/freesurfer/wrapper.py`): copy selected `mri/*.mgz` files and all
`stats/*.stats` files of the FreeSurfer subject into the BIDS-derivatives
layout, skipping sources that do not exist (`_copy_file` checks existence),
and returning early when the FreeSurfer subject directory is missing. -/
def organizeBidsOutput (env : OrganizeEnv) (output_dir freesurfer_dir : String)
    (subject_id : String) (session_label : Option String) : OrganizeOutcome :=
  let session_part :=
    if optTruthy session_label then "_ses-" ++ session_label.getD "" else ""
  let bids_subject_dir :=
    if optTruthy session_label then
      pjoin (pjoin output_dir subject_id) ("ses-" ++ session_label.getD "")
    else pjoin output_dir subject_id
  let anat_dir := pjoin bids_subject_dir "anat"
  let stats_dir := pjoin bids_subject_dir "stats"
  let fs_subject_id :=
    if optTruthy session_label then subject_id ++ "_ses-" ++ session_label.getD ""
    else subject_id
  let fs_subject_dir := pjoin freesurfer_dir fs_subject_id
  if !env.fileExists fs_subject_dir then
    { returnedEarly := true, copies := [] }
  else
    let mri_files : List (String × String) :=
      [("brain.mgz", subject_id ++ session_part ++ "_desc-brain_T1w.nii.gz"),
       ("aparc.DKTatlas+aseg.mgz",
        subject_id ++ session_part ++ "_desc-aparcaseg_dseg.nii.gz"),
       ("wmparc.mgz", subject_id ++ session_part ++ "_desc-wmparc_dseg.nii.gz")]
    let mriCopies := mri_files.filterMap (fun p =>
      let src := pjoin (pjoin fs_subject_dir "mri") p.1
      if env.fileExists src then some (src, pjoin anat_dir p.2) else none)
    let statsCopies :=
      if env.fileExists (pjoin fs_subject_dir "stats") then
        env.statsGlob.filterMap (fun name =>
          let src := pjoin (pjoin fs_subject_dir "stats") name
          if env.fileExists src then
            some (src, pjoin stats_dir (subject_id ++ session_part ++ "_" ++ name))
          else none)
      else []
    { returnedEarly := false, copies := mriCopies ++ statsCopies }

/-- Environment for `process_subject`: the BIDS layout query results for this
subject/session, the filesystem oracle, and the behaviour of the external
`recon-all` run and of the output reorganization. -/
structure SubjectEnv where
  findT1w : List String
  findT2w : List String
  fileExists : String → Bool
  reconRaises : Bool
  statsGlob : List String
  organizeRaises : Bool

/-- Observable outcome of `process_subject`: the boolean return value, the
updated wrapper state, whether an exception escaped the method, and whether
`recon-all` was invoked / the outputs reorganized. -/
structure SubjectOutcome where
  retval : Bool
  uncaughtError : Bool
  state : WrapperState
  reconInvoked : Bool
  reconCmd : List String
  organizeInvoked : Bool
  organize : OrganizeOutcome
deriving Repr, DecidableEq

/-- Embedding of `FreeSurferWrapper.process_subject`
(`src/freesurfer/wrapper.py`). The callers always supply a layout, so the
`layout is None` branch is not modelled. The two mapping updates
(`subject_t1_mapping[fs] = {...}` then the conditional `'T2w_images'` key)
are combined into one `assocSet`, since no observable step lies between.
When `subject_id` lacks the `sub-` prefix the method raises `ValueError`,
and the `except` handler reads `bids_session` before its first assignment,
so an `UnboundLocalError` escapes without touching any result list. -/
def processSubject (env : SubjectEnv) (st : WrapperState)
    (output_dir freesurfer_dir : String) (subject_id : String)
    (session_label : Option String) : SubjectOutcome :=
  if !pyStartsWith subject_id "sub-" then
    { retval := false, uncaughtError := true, state := st, reconInvoked := false,
      reconCmd := [], organizeInvoked := false, organize := ⟨false, []⟩ }
  else
    let bids_session : Option String :=
      if optTruthy session_label then
        let sl := session_label.getD ""
        if pyStartsWith sl "ses-" then some (strDrop sl 4) else some sl
      else none
    let sesTag := if optTruthy bids_session then "_ses-" ++ bids_session.getD "" else ""
    let t1w_images := env.findT1w
    if t1w_images.isEmpty then
      { retval := false, uncaughtError := false,
        state := { st with results :=
          { st.results with skipped := st.results.skipped ++ [subject_id ++ sesTag] } },
        reconInvoked := false, reconCmd := [], organizeInvoked := false,
        organize := ⟨false, []⟩ }
    else
      let fs_subject_id :=
        if optTruthy session_label then subject_id ++ "_ses-" ++ session_label.getD ""
        else subject_id
      let t2w_images := env.findT2w
      let info : T1Info :=
        ⟨t1w_images, session_label, if t2w_images.isEmpty then none else some t2w_images⟩
      let st1 :=
        { st with subjectT1Mapping := assocSet st.subjectT1Mapping fs_subject_id info }
      let markerPath :=
        pjoin (pjoin (pjoin freesurfer_dir fs_subject_id) "scripts") "recon-all.done"
      if env.fileExists markerPath then
        { retval := true, uncaughtError := false,
          state := { st1 with results :=
            { st1.results with skipped := st1.results.skipped ++ [fs_subject_id] } },
          reconInvoked := false, reconCmd := [], organizeInvoked := false,
          organize := ⟨false, []⟩ }
      else
        let cmd := createReconAllCommand subject_id t1w_images (some t2w_images)
          (if optTruthy session_label then bids_session else none)
        if env.reconRaises then
          { retval := false, uncaughtError := false,
            state := { st1 with results :=
              { st1.results with failure := st1.results.failure ++ [subject_id ++ sesTag] } },
            reconInvoked := true, reconCmd := cmd, organizeInvoked := false,
            organize := ⟨false, []⟩ }
        else
          let org := organizeBidsOutput ⟨env.fileExists, env.statsGlob⟩ output_dir
            freesurfer_dir subject_id (if optTruthy session_label then bids_session else none)
          if env.organizeRaises then
            { retval := false, uncaughtError := false,
              state := { st1 with results :=
                { st1.results with failure := st1.results.failure ++ [subject_id ++ sesTag] } },
              reconInvoked := true, reconCmd := cmd, organizeInvoked := true,
              organize := org }
          else
            { retval := true, uncaughtError := false,
              state := { st1 with results :=
                { st1.results with success := st1.results.success ++ [fs_subject_id] } },
              reconInvoked := true, reconCmd := cmd, organizeInvoked := true,
              organize := org }

/-- The summary dict built by `get_processing_summary`. -/
structure ProcessingSummary where
  total : Nat
  success : Nat
  failure : Nat
  skipped : Nat
  successList : List String
  failureList : List String
  skippedList : List String
deriving Repr, DecidableEq

/-- Embedding of `FreeSurferWrapper.get_processing_summary`
(`src/freesurfer/wrapper.py`). -/
def getProcessingSummary (st : WrapperState) : ProcessingSummary :=
  { total := st.results.success.length + st.results.failure.length
      + st.results.skipped.length,
    success := st.results.success.length,
    failure := st.results.failure.length,
    skipped := st.results.skipped.length,
    successList := st.results.success,
    failureList := st.results.failure,
    skippedList := st.results.skipped }

/-- Environment for `nidm_conversion`: a filesystem oracle for the discovery
and copy phase (`existsPre`), one for the aggregation phase after the
converter subprocess has run (`existsPost`), the glob listings involved
(file names, in the order the filesystem yields them), the behaviour of the
copy, of `Path.resolve` comparison, and of the converter subprocess, and the
RDF parser (`none` models a `Graph.parse` exception). -/
structure NidmEnv where
  existsPre : String → Bool
  inputGlob : String → List String
  resolveEq : String → String → Bool
  copyRaises : Bool
  preFiles : List String
  converterReturncode : Nat
  postFiles : List String
  existsPost : String → Bool
  parse : String → Option (List Nat)

/-- Observable outcome of `nidm_conversion`. `exitCode = some 1` models
`sys.exit(1)`; `serialized` lists the `(destination, format)` pairs passed to
`Graph.serialize`; `reachedAggregation` is true exactly when control reached
the aggregation-source building step. -/
structure NidmOutcome where
  warnedNoT1 : Bool
  existingNidmFile : Option String
  copiedNidm : Option String
  copyPerformed : Bool
  exitCode : Option Nat
  converterInvoked : Bool
  cmd : List String
  newOutputs : List String
  reachedAggregation : Bool
  aggregationSources : List String
  graph : List Nat
  serialized : List (String × String)
deriving Repr, DecidableEq

/-- The FreeSurfer-style subject id used throughout `nidm_conversion`
(`sub-` prefix added back; `is None` is an identity test, not truthiness). -/
def nidmFsSubjectId (participant_label : String) (bids_session : Option String) : String :=
  match bids_session with
  | none => "sub-" ++ participant_label
  | some s => "sub-" ++ participant_label ++ "_ses-" ++ s

/-- Discovery of a pre-existing NIDM file in `nidm_conversion`
(`src/run.py`): prefer `<nidm_input_dir>/nidm.ttl`, then the first
`*.ttl`, `*.jsonld`, `*.json-ld` glob match; nothing when the directory is
`None` or missing. -/
def discoverExistingNidm (env : NidmEnv) (nidm_input_dir : Option String) :
    Option String :=
  match nidm_input_dir with
  | none => none
  | some d =>
    if env.existsPre d then
      if env.existsPre (pjoin d "nidm.ttl") then some (pjoin d "nidm.ttl")
      else
        match env.inputGlob "*.ttl" with
        | f :: _ => some (pjoin d f)
        | [] =>
          match env.inputGlob "*.jsonld" with
          | f :: _ => some (pjoin d f)
          | [] =>
            match env.inputGlob "*.json-ld" with
            | f :: _ => some (pjoin d f)
            | [] => none
    else none

/-- `copied_nidm` in `nidm_conversion`: the discovered file's name under the
output `nidm_dir`, when a file was discovered. -/
def copiedNidmPath (env : NidmEnv) (nidm_dir : String)
    (nidm_input_dir : Option String) : Option String :=
  (discoverExistingNidm env nidm_input_dir).map (fun ef => pjoin nidm_dir (basename ef))

/-- `new_outputs` in `nidm_conversion`: paths in `nidm_dir` after the
converter ran whose names were not present before. -/
def newNidmOutputs (env : NidmEnv) (nidm_dir : String) : List String :=
  (env.postFiles.filter (fun n => !env.preFiles.contains n)).map
    (fun n => pjoin nidm_dir n)

/-- The suffix filter applied to newly created files before aggregation:
`candidate.suffix.lower() in {".ttl", ".json", ".jsonld", ".json-ld"}`. -/
def aggSuffixOk (p : String) : Bool :=
  [".ttl", ".json", ".jsonld", ".json-ld"].contains (strLower (pySuffix (basename p)))

/-- Embedding of `nidm_conversion` (`src/run.py`). `sys.executable` is
modelled as the constant `"python3"`; logging and the environment-variable
plumbing for the subprocess have no modelled effect. -/
def nidmConversion (env : NidmEnv) (nidm_dir freesurfer_dir participant_label : String)
    (mapping : List (String × T1Info)) (bids_session : Option String)
    (nidm_input_dir : Option String) : NidmOutcome :=
  let fs_subject_id := nidmFsSubjectId participant_label bids_session
  let subject_dir := pjoin freesurfer_dir fs_subject_id
  let t1_info := getSubjectT1Info mapping fs_subject_id bids_session
  let t1_images := infoT1w t1_info
  let warned := t1_images.isEmpty
  let existing_nidm_file := discoverExistingNidm env nidm_input_dir
  let copied_nidm := copiedNidmPath env nidm_dir nidm_input_dir
  let copyFailed : Bool :=
    match existing_nidm_file, copied_nidm with
    | some ef, some cp => !env.resolveEq ef cp && env.copyRaises
    | _, _ => false
  let copyDone : Bool :=
    match existing_nidm_file, copied_nidm with
    | some ef, some cp => !env.resolveEq ef cp && !env.copyRaises
    | _, _ => false
  if copyFailed then
    { warnedNoT1 := warned, existingNidmFile := existing_nidm_file,
      copiedNidm := copied_nidm, copyPerformed := false, exitCode := some 1,
      converterInvoked := false, cmd := [], newOutputs := [],
      reachedAggregation := false, aggregationSources := [], graph := [],
      serialized := [] }
  else
    let module_name := "segstats_jsonld.fs_to_nidm"
    let cmd :=
      match copied_nidm with
      | some cp =>
        ["python3", "-m", module_name, "-s", subject_dir, "-n", cp, "-j", "--forcenidm"]
      | none => ["python3", "-m", module_name, "-s", subject_dir, "-o", nidm_dir, "-j"]
    if env.converterReturncode ≠ 0 then
      { warnedNoT1 := warned, existingNidmFile := existing_nidm_file,
        copiedNidm := copied_nidm, copyPerformed := copyDone, exitCode := some 1,
        converterInvoked := true, cmd := cmd, newOutputs := [],
        reachedAggregation := false, aggregationSources := [], graph := [],
        serialized := [] }
    else
      let new_outputs := newNidmOutputs env nidm_dir
      if new_outputs.isEmpty && copied_nidm.isNone then
        { warnedNoT1 := warned, existingNidmFile := existing_nidm_file,
          copiedNidm := copied_nidm, copyPerformed := copyDone, exitCode := none,
          converterInvoked := true, cmd := cmd, newOutputs := new_outputs,
          reachedAggregation := false, aggregationSources := [], graph := [],
          serialized := [] }
      else
        let base_sources : List String :=
          match copied_nidm with
          | some cp =>
            if env.existsPost cp then [cp]
            else
              match existing_nidm_file with
              | some ef => if env.existsPost ef then [ef] else []
              | none => []
          | none =>
            match existing_nidm_file with
            | some ef => if env.existsPost ef then [ef] else []
            | none => []
        let aggregation_sources := base_sources ++ new_outputs.filter aggSuffixOk
        if aggregation_sources.isEmpty then
          { warnedNoT1 := warned, existingNidmFile := existing_nidm_file,
            copiedNidm := copied_nidm, copyPerformed := copyDone, exitCode := none,
            converterInvoked := true, cmd := cmd, newOutputs := new_outputs,
            reachedAggregation := true, aggregationSources := [], graph := [],
            serialized := [] }
        else
          let graph := aggregation_sources.foldl (fun g s =>
            match env.parse s with
            | some triples => g ++ triples
            | none => g) []
          if graph.isEmpty then
            { warnedNoT1 := warned, existingNidmFile := existing_nidm_file,
              copiedNidm := copied_nidm, copyPerformed := copyDone, exitCode := none,
              converterInvoked := true, cmd := cmd, newOutputs := new_outputs,
              reachedAggregation := true, aggregationSources := aggregation_sources,
              graph := graph, serialized := [] }
          else
            let target_ttl := pjoin nidm_dir (pyWithSuffix fs_subject_id ".ttl")
            let target_jsonld := pjoin nidm_dir (pyWithSuffix fs_subject_id ".jsonld")
            { warnedNoT1 := warned, existingNidmFile := existing_nidm_file,
              copiedNidm := copied_nidm, copyPerformed := copyDone, exitCode := none,
              converterInvoked := true, cmd := cmd, newOutputs := new_outputs,
              reachedAggregation := true, aggregationSources := aggregation_sources,
              graph := graph,
              serialized := [(target_ttl, "turtle"), (target_jsonld, "json-ld")] }

/-- Python `pathlib.PurePath.parent` for the relative slash-joined paths used
here (`Path("a").parent` is `Path(".")`). -/
def parentDir (p : String) : String :=
  let parts := p.data.splitOn '/'
  if parts.length ≤ 1 then "."
  else String.intercalate "/" (parts.dropLast.map String.mk)

/-- Environment for `process_participant` / `process_session`: whether
`bids_dir.parent / "NIDM"` exists, the layout's subject and session listings,
and the environments of the two processing phases. -/
structure AppEnv where
  nidmInputDirExists : Bool
  availableSubjects : List String
  availableSessions : List String
  subject : SubjectEnv
  nidm : NidmEnv

/-- Observable outcome of a `process_participant` / `process_session` run. -/
structure RunOutcome where
  exitCode : Option Nat
  subjectProcessed : Bool
  subject : Option SubjectOutcome
  nidmCalled : Bool
  nidm : Option NidmOutcome
deriving Repr, DecidableEq

/-- Embedding of `process_participant` (`src/run.py`): strip a leading
`sub-` once, validate the subject against the layout, run
`process_subject`, then run `nidm_conversion` exactly when processing
returned `True` and `--skip_nidm` was not given. An exception escaping
`process_subject` is caught by the surrounding `try` and turns into
`sys.exit(1)`. -/
def processParticipant (env : AppEnv) (st : WrapperState)
    (bids_dir output_dir participant_label : String) (skip_nidm : Bool) : RunOutcome :=
  let app_output_dir := pjoin output_dir "freesurfer_bidsapp"
  let freesurfer_dir := pjoin app_output_dir "freesurfer"
  let nidm_dir := pjoin app_output_dir "nidm"
  let nidm_input_dir :=
    if env.nidmInputDirExists then some (pjoin (parentDir bids_dir) "NIDM") else none
  let label :=
    if pyStartsWith participant_label "sub-" then strDrop participant_label 4
    else participant_label
  if !env.availableSubjects.contains label then
    { exitCode := some 1, subjectProcessed := false, subject := none,
      nidmCalled := false, nidm := none }
  else
    let fs_subject_id := "sub-" ++ label
    let so := processSubject env.subject st app_output_dir freesurfer_dir fs_subject_id none
    if so.uncaughtError then
      { exitCode := some 1, subjectProcessed := true, subject := some so,
        nidmCalled := false, nidm := none }
    else if so.retval && !skip_nidm then
      let no := nidmConversion env.nidm nidm_dir freesurfer_dir label
        so.state.subjectT1Mapping none nidm_input_dir
      { exitCode := no.exitCode, subjectProcessed := true, subject := some so,
        nidmCalled := true, nidm := some no }
    else
      { exitCode := none, subjectProcessed := true, subject := some so,
        nidmCalled := false, nidm := none }

/-- Embedding of `process_session` (`src/run.py`): strip `sub-` and `ses-`
once each, validate subject and session against the layout, run
`process_subject` with the session label, then run `nidm_conversion` exactly
when processing returned `True` and `--skip_nidm` was not given. -/
def processSession (env : AppEnv) (st : WrapperState)
    (bids_dir output_dir participant_label session_label : String)
    (skip_nidm : Bool) : RunOutcome :=
  let app_output_dir := pjoin output_dir "freesurfer_bidsapp"
  let freesurfer_dir := pjoin app_output_dir "freesurfer"
  let nidm_dir := pjoin app_output_dir "nidm"
  let nidm_input_dir :=
    if env.nidmInputDirExists then some (pjoin (parentDir bids_dir) "NIDM") else none
  let label :=
    if pyStartsWith participant_label "sub-" then strDrop participant_label 4
    else participant_label
  let ses :=
    if pyStartsWith session_label "ses-" then strDrop session_label 4
    else session_label
  if !env.availableSubjects.contains label then
    { exitCode := some 1, subjectProcessed := false, subject := none,
      nidmCalled := false, nidm := none }
  else if !env.availableSessions.contains ses then
    { exitCode := some 1, subjectProcessed := false, subject := none,
      nidmCalled := false, nidm := none }
  else
    let fs_subject_id := "sub-" ++ label
    let so := processSubject env.subject st app_output_dir freesurfer_dir fs_subject_id
      (some ses)
    if so.uncaughtError then
      { exitCode := some 1, subjectProcessed := true, subject := some so,
        nidmCalled := false, nidm := none }
    else if so.retval && !skip_nidm then
      let no := nidmConversion env.nidm nidm_dir freesurfer_dir label
        so.state.subjectT1Mapping (some ses) nidm_input_dir
      { exitCode := no.exitCode, subjectProcessed := true, subject := some so,
        nidmCalled := true, nidm := some no }
    else
      { exitCode := none, subjectProcessed := true, subject := some so,
        nidmCalled := false, nidm := none }

/-! ## Helper lemmas -/

theorem optTruthy_some_of_ne (s : String) (h : s ≠ "") : optTruthy (some s) = true := by
  simp [optTruthy, h]

theorem assocFind_eq_none (m : List (String × T1Info)) (k : String)
    (h : ∀ p ∈ m, p.1 ≠ k) : assocFind m k = none := by
  unfold assocFind
  have hf : m.find? (fun p => p.1 == k) = none := by
    apply List.find?_eq_none.mpr
    intro p hp
    simpa using h p hp
  simp [hf]

theorem nidmConversion_existingNidmFile (env : NidmEnv)
    (nidm_dir freesurfer_dir participant_label : String)
    (mapping : List (String × T1Info)) (bids_session : Option String)
    (nidm_input_dir : Option String) :
    (nidmConversion env nidm_dir freesurfer_dir participant_label mapping
      bids_session nidm_input_dir).existingNidmFile =
      discoverExistingNidm env nidm_input_dir := by
  simp only [nidmConversion]
  repeat' split
  all_goals rfl

theorem nidmConversion_copiedNidm (env : NidmEnv)
    (nidm_dir freesurfer_dir participant_label : String)
    (mapping : List (String × T1Info)) (bids_session : Option String)
    (nidm_input_dir : Option String) :
    (nidmConversion env nidm_dir freesurfer_dir participant_label mapping
      bids_session nidm_input_dir).copiedNidm =
      copiedNidmPath env nidm_dir nidm_input_dir := by
  simp only [nidmConversion]
  repeat' split
  all_goals rfl

theorem nidmConversion_warnedNoT1 (env : NidmEnv)
    (nidm_dir freesurfer_dir participant_label : String)
    (mapping : List (String × T1Info)) (bids_session : Option String)
    (nidm_input_dir : Option String) :
    (nidmConversion env nidm_dir freesurfer_dir participant_label mapping
      bids_session nidm_input_dir).warnedNoT1 =
      (infoT1w (getSubjectT1Info mapping
        (nidmFsSubjectId participant_label bids_session) bids_session)).isEmpty := by
  simp only [nidmConversion]
  repeat' split
  all_goals rfl

theorem nidmConversion_converterInvoked (env : NidmEnv)
    (nidm_dir freesurfer_dir participant_label : String)
    (mapping : List (String × T1Info)) (bids_session : Option String)
    (nidm_input_dir : Option String) (hcopy : env.copyRaises = false) :
    (nidmConversion env nidm_dir freesurfer_dir participant_label mapping
      bids_session nidm_input_dir).converterInvoked = true := by
  rcases h : discoverExistingNidm env nidm_input_dir with _ | ef
  · simp only [nidmConversion, copiedNidmPath, h, Option.map_none']
    repeat' split
    all_goals first | rfl | simp_all
  · simp only [nidmConversion, copiedNidmPath, h, Option.map_some', hcopy,
      Bool.and_false, if_false]
    repeat' split
    all_goals first | rfl | simp_all

theorem discoverExistingNidm_eq_claim (env : NidmEnv) (i : Option String) :
    discoverExistingNidm env i =
      match i with
      | none => none
      | some d =>
        if env.existsPre d then
          if env.existsPre (pjoin d "nidm.ttl") then some (pjoin d "nidm.ttl")
          else (((env.inputGlob "*.ttl").head?.orElse
                  (fun _ => (env.inputGlob "*.jsonld").head?)).orElse
                  (fun _ => (env.inputGlob "*.json-ld").head?)).map
                 (fun f => pjoin d f)
        else none := by
  cases i with
  | none => rfl
  | some d =>
    simp only [discoverExistingNidm]
    by_cases h1 : env.existsPre d
    · simp only [h1, if_true]
      by_cases h2 : env.existsPre (pjoin d "nidm.ttl")
      · simp [h2]
      · cases hg1 : env.inputGlob "*.ttl" with
        | cons f rest => simp [h2, hg1, Option.orElse]
        | nil =>
          cases hg2 : env.inputGlob "*.jsonld" with
          | cons f rest => simp [h2, hg1, hg2, Option.orElse]
          | nil =>
            cases hg3 : env.inputGlob "*.json-ld" with
            | cons f rest => simp [h2, hg1, hg2, hg3, Option.orElse]
            | nil => simp [h2, hg1, hg2, hg3, Option.orElse]
    · simp [h1]

/-! ## Concrete fixtures used by witnesses and counterexamples -/

/-- A fresh wrapper state: empty result lists, empty `subject_t1_mapping`. -/
def st0 : WrapperState := ⟨⟨[], [], []⟩, []⟩

/-- A benign concrete subject environment: one T1w image, no T2w, every path
exists, `recon-all` and the reorganization succeed. -/
def subjEnvA : SubjectEnv :=
  { findT1w := ["bids/sub-001/anat/sub-001_T1w.nii.gz"], findT2w := [],
    fileExists := fun _ => true, reconRaises := false, statsGlob := [],
    organizeRaises := false }

/-! ## Claim theorems -/

/-- C2: `_create_recon_all_command` returns exactly
`["recon-all", "-subjid", fs_subject_id]`, then `["-i", img]` for each T1w
image in order, then `["-T2", first T2w, "-T2pial"]` iff the T2w list is
non-empty (only the first T2w image is used), then `["-all"]`; the subject id
gets `_ses-<label>` appended exactly when a session label is given. -/
theorem createReconAllCommand_spec (subject_id : String) (t1w_images : List String)
    (t2w_images : Option (List String)) (session_label : Option String)
    (_ht1 : t1w_images ≠ []) (hses : session_label ≠ some "") :
    createReconAllCommand subject_id t1w_images t2w_images session_label =
      ["recon-all", "-subjid",
        (match session_label with
         | some s => subject_id ++ "_ses-" ++ s
         | none => subject_id)]
      ++ t1w_images.flatMap (fun img => ["-i", img])
      ++ (match t2w_images.getD [] with
          | [] => []
          | t2 :: _ => ["-T2", t2, "-T2pial"])
      ++ ["-all"] := by
  cases session_label with
  | none =>
    cases t2w_images with
    | none => simp [createReconAllCommand, optTruthy]
    | some l => cases l <;> simp [createReconAllCommand, optTruthy]
  | some s =>
    have hs : s ≠ "" := fun h => hses (by rw [h])
    cases t2w_images with
    | none => simp [createReconAllCommand, optTruthy, hs]
    | some l => cases l <;> simp [createReconAllCommand, optTruthy, hs]

theorem createReconAllCommand_spec_witness :
    (["t1.nii.gz"] : List String) ≠ [] ∧ (some "01" : Option String) ≠ some "" ∧
    createReconAllCommand "sub-001" ["t1.nii.gz"] (some ["t2.nii.gz", "t2b.nii.gz"])
        (some "01") =
      ["recon-all", "-subjid", "sub-001_ses-01", "-i", "t1.nii.gz",
       "-T2", "t2.nii.gz", "-T2pial", "-all"] :=
  ⟨by decide, by decide,
    (createReconAllCommand_spec "sub-001" ["t1.nii.gz"]
      (some ["t2.nii.gz", "t2b.nii.gz"]) (some "01") (by decide) (by decide)).trans
      (by decide)⟩

/-- C4: the pre-existing NIDM file selected by `nidm_conversion` is
`<nidm_input_dir>/nidm.ttl` when it exists, else the first `*.ttl` match,
else the first `*.jsonld` match, else the first `*.json-ld` match; none when
`nidm_input_dir` is `None` or does not exist. -/
theorem nidm_existing_file_discovery (env : NidmEnv)
    (nidm_dir freesurfer_dir participant_label : String)
    (mapping : List (String × T1Info)) (bids_session : Option String)
    (nidm_input_dir : Option String) :
    (nidmConversion env nidm_dir freesurfer_dir participant_label mapping
      bids_session nidm_input_dir).existingNidmFile =
      match nidm_input_dir with
      | none => none
      | some d =>
        if env.existsPre d then
          if env.existsPre (pjoin d "nidm.ttl") then some (pjoin d "nidm.ttl")
          else (((env.inputGlob "*.ttl").head?.orElse
                  (fun _ => (env.inputGlob "*.jsonld").head?)).orElse
                  (fun _ => (env.inputGlob "*.json-ld").head?)).map
                 (fun f => pjoin d f)
        else none :=
  (nidmConversion_existingNidmFile env nidm_dir freesurfer_dir participant_label
    mapping bids_session nidm_input_dir).trans
    (discoverExistingNidm_eq_claim env nidm_input_dir)

/-- C10: `get_subject_t1_info` returns the empty dict for a subject that was
never recorded, and `nidm_conversion` then warns about the missing T1
information but still invokes the converter. -/
theorem getSubjectT1Info_unknown (mapping : List (String × T1Info))
    (subject_id : String) (session_label : Option String) (env : NidmEnv)
    (nidm_dir freesurfer_dir participant_label : String)
    (bids_session : Option String) (nidm_input_dir : Option String)
    (h1 : ∀ p ∈ mapping, p.1 ≠ t1LookupKey subject_id session_label)
    (h2 : ∀ p ∈ mapping,
      p.1 ≠ t1LookupKey (nidmFsSubjectId participant_label bids_session) bids_session)
    (hcopy : env.copyRaises = false) :
    getSubjectT1Info mapping subject_id session_label = none ∧
    (nidmConversion env nidm_dir freesurfer_dir participant_label mapping
      bids_session nidm_input_dir).warnedNoT1 = true ∧
    (nidmConversion env nidm_dir freesurfer_dir participant_label mapping
      bids_session nidm_input_dir).converterInvoked = true := by
  refine ⟨?_, ?_, ?_⟩
  · exact assocFind_eq_none mapping _ h1
  · rw [nidmConversion_warnedNoT1]
    unfold getSubjectT1Info
    rw [assocFind_eq_none mapping _ h2]
    rfl
  · exact nidmConversion_converterInvoked env nidm_dir freesurfer_dir
      participant_label mapping bids_session nidm_input_dir hcopy

/-- A concrete NIDM environment: no input NIDM directory contents, the copy
does not fail, the converter succeeds and creates one turtle file, every path
exists afterwards, and every source parses to one triple. -/
def nidmEnvA : NidmEnv :=
  { existsPre := fun _ => false, inputGlob := fun _ => [],
    resolveEq := fun a b => a == b, copyRaises := false, preFiles := [],
    converterReturncode := 0, postFiles := ["prov.ttl"],
    existsPost := fun _ => true, parse := fun _ => some [1] }

/-- A one-entry `subject_t1_mapping` for a different subject. -/
def mapping0 : List (String × T1Info) := [("sub-002", ⟨["x.nii"], none, none⟩)]

theorem getSubjectT1Info_unknown_witness :
    (∀ p ∈ mapping0, p.1 ≠ t1LookupKey "sub-001" none) ∧
    (∀ p ∈ mapping0, p.1 ≠ t1LookupKey (nidmFsSubjectId "001" none) none) ∧
    nidmEnvA.copyRaises = false ∧
    (getSubjectT1Info mapping0 "sub-001" none = none ∧
     (nidmConversion nidmEnvA "out/nidm" "out/freesurfer" "001" mapping0 none
       none).warnedNoT1 = true ∧
     (nidmConversion nidmEnvA "out/nidm" "out/freesurfer" "001" mapping0 none
       none).converterInvoked = true) :=
  ⟨by decide, by decide, rfl,
    getSubjectT1Info_unknown mapping0 "sub-001" none nidmEnvA "out/nidm"
      "out/freesurfer" "001" none none (by decide) (by decide) rfl⟩

/-- C9: evaluation of `process_subject` at a subject id lacking the `sub-`
prefix: the method raises `ValueError`, whose handler itself hits
`UnboundLocalError` on `bids_session`, so the call appends the subject to
none of the three result lists (contradicting the handler's own intent and
the documented `True`/`False` return). -/
theorem processSubject_unprefixed_appends_nothing :
    (processSubject subjEnvA st0 "out/freesurfer_bidsapp"
      "out/freesurfer_bidsapp/freesurfer" "001" none).uncaughtError = true ∧
    (processSubject subjEnvA st0 "out/freesurfer_bidsapp"
      "out/freesurfer_bidsapp/freesurfer" "001" none).state = st0 := by
  constructor <;> rfl

theorem ifTruthy_eq_match (subject_id : String) (session_label : Option String)
    (h : session_label ≠ some "") :
    (if optTruthy session_label then subject_id ++ "_ses-" ++ session_label.getD ""
     else subject_id) =
    (match session_label with
     | some s => subject_id ++ "_ses-" ++ s
     | none => subject_id) := by
  cases session_label with
  | none => rfl
  | some s =>
    have hs : s ≠ "" := fun hh => h (by rw [hh])
    simp [optTruthy_some_of_ne s hs]

/-- C3: when T1w images are found and the
`<freesurfer_dir>/<fs_subject_id>/scripts/recon-all.done` marker exists,
`process_subject` returns `True`, appends the FreeSurfer subject id to the
skipped list, leaves the success and failure lists unchanged, and neither
invokes `recon-all` nor reorganizes outputs — so a second call on a completed
subject leaves the FreeSurfer output directory untouched. -/
theorem processSubject_skip_if_done (env : SubjectEnv) (st : WrapperState)
    (output_dir freesurfer_dir subject_id : String) (session_label : Option String)
    (hpre : pyStartsWith subject_id "sub-" = true)
    (hses : session_label ≠ some "")
    (ht1 : env.findT1w ≠ [])
    (hmark : env.fileExists (pjoin (pjoin (pjoin freesurfer_dir
      (match session_label with
       | some s => subject_id ++ "_ses-" ++ s
       | none => subject_id)) "scripts") "recon-all.done") = true) :
    (processSubject env st output_dir freesurfer_dir subject_id
      session_label).retval = true ∧
    (processSubject env st output_dir freesurfer_dir subject_id
      session_label).state.results.skipped =
      st.results.skipped ++ [(match session_label with
       | some s => subject_id ++ "_ses-" ++ s
       | none => subject_id)] ∧
    (processSubject env st output_dir freesurfer_dir subject_id
      session_label).state.results.success = st.results.success ∧
    (processSubject env st output_dir freesurfer_dir subject_id
      session_label).state.results.failure = st.results.failure ∧
    (processSubject env st output_dir freesurfer_dir subject_id
      session_label).reconInvoked = false ∧
    (processSubject env st output_dir freesurfer_dir subject_id
      session_label).organizeInvoked = false ∧
    (processSubject env st output_dir freesurfer_dir subject_id
      session_label).organize.copies = [] := by
  have hfs := ifTruthy_eq_match subject_id session_label hses
  have ht1' : env.findT1w.isEmpty = false := by
    cases h : env.findT1w with
    | nil => exact absurd h ht1
    | cons a l => rfl
  simp only [processSubject, hpre, Bool.not_true, if_false, ht1', hfs, hmark, if_true,
    Bool.false_eq_true]
  repeat' constructor
  all_goals first | trivial | (cases session_label <;> rfl)

theorem processSubject_skip_if_done_witness :
    pyStartsWith "sub-001" "sub-" = true ∧
    (some "01" : Option String) ≠ some "" ∧
    subjEnvA.findT1w ≠ [] ∧
    subjEnvA.fileExists (pjoin (pjoin (pjoin "out/freesurfer_bidsapp/freesurfer"
      (match (some "01" : Option String) with
       | some s => "sub-001" ++ "_ses-" ++ s
       | none => "sub-001")) "scripts") "recon-all.done") = true ∧
    ((processSubject subjEnvA st0 "out/freesurfer_bidsapp"
       "out/freesurfer_bidsapp/freesurfer" "sub-001" (some "01")).retval = true ∧
     (processSubject subjEnvA st0 "out/freesurfer_bidsapp"
       "out/freesurfer_bidsapp/freesurfer" "sub-001" (some "01")).state.results.skipped =
       st0.results.skipped ++ [(match (some "01" : Option String) with
        | some s => "sub-001" ++ "_ses-" ++ s
        | none => "sub-001")] ∧
     (processSubject subjEnvA st0 "out/freesurfer_bidsapp"
       "out/freesurfer_bidsapp/freesurfer" "sub-001" (some "01")).state.results.success =
       st0.results.success ∧
     (processSubject subjEnvA st0 "out/freesurfer_bidsapp"
       "out/freesurfer_bidsapp/freesurfer" "sub-001" (some "01")).state.results.failure =
       st0.results.failure ∧
     (processSubject subjEnvA st0 "out/freesurfer_bidsapp"
       "out/freesurfer_bidsapp/freesurfer" "sub-001" (some "01")).reconInvoked = false ∧
     (processSubject subjEnvA st0 "out/freesurfer_bidsapp"
       "out/freesurfer_bidsapp/freesurfer" "sub-001" (some "01")).organizeInvoked = false ∧
     (processSubject subjEnvA st0 "out/freesurfer_bidsapp"
       "out/freesurfer_bidsapp/freesurfer" "sub-001" (some "01")).organize.copies = []) :=
  ⟨by decide, by decide, by decide, rfl,
    processSubject_skip_if_done subjEnvA st0 "out/freesurfer_bidsapp"
      "out/freesurfer_bidsapp/freesurfer" "sub-001" (some "01") (by decide)
      (by decide) (by decide) rfl⟩

/-- C6: after a successful `recon-all` run, `_organize_bids_output` copies
`brain.mgz`, `aparc.DKTatlas+aseg.mgz` and `wmparc.mgz` from the FreeSurfer
subject's `mri` directory into `<output_dir>/<subject_id>[/ses-<label>]/anat`
under the BIDS-derivative names, and every `*.stats` file into `.../stats`
prefixed with `<subject_id>[_ses-<label>]_`; sources that do not exist are
silently skipped, and a missing FreeSurfer subject directory means nothing is
copied at all. -/
theorem organizeBidsOutput_spec (env : OrganizeEnv)
    (output_dir freesurfer_dir subject_id : String) (session_label : Option String)
    (hses : session_label ≠ some "") :
    (env.fileExists (pjoin freesurfer_dir
        (match session_label with
         | some l => subject_id ++ "_ses-" ++ l
         | none => subject_id)) = false →
      organizeBidsOutput env output_dir freesurfer_dir subject_id session_label =
        ⟨true, []⟩) ∧
    (env.fileExists (pjoin freesurfer_dir
        (match session_label with
         | some l => subject_id ++ "_ses-" ++ l
         | none => subject_id)) = true →
      (organizeBidsOutput env output_dir freesurfer_dir subject_id
        session_label).copies =
        (let sesPart := match session_label with
          | some l => "_ses-" ++ l
          | none => ""
         let subjDir := match session_label with
          | some l => pjoin (pjoin output_dir subject_id) ("ses-" ++ l)
          | none => pjoin output_dir subject_id
         let fsDir := pjoin freesurfer_dir
          (match session_label with
           | some l => subject_id ++ "_ses-" ++ l
           | none => subject_id)
         ([("brain.mgz", "_desc-brain_T1w.nii.gz"),
           ("aparc.DKTatlas+aseg.mgz", "_desc-aparcaseg_dseg.nii.gz"),
           ("wmparc.mgz", "_desc-wmparc_dseg.nii.gz")].filterMap (fun p =>
            if env.fileExists (pjoin (pjoin fsDir "mri") p.1) then
              some (pjoin (pjoin fsDir "mri") p.1,
                pjoin (pjoin subjDir "anat") (subject_id ++ sesPart ++ p.2))
            else none))
         ++ (if env.fileExists (pjoin fsDir "stats") then
              env.statsGlob.filterMap (fun name =>
                if env.fileExists (pjoin (pjoin fsDir "stats") name) then
                  some (pjoin (pjoin fsDir "stats") name,
                    pjoin (pjoin subjDir "stats") (subject_id ++ sesPart ++ "_" ++ name))
                else none)
             else []))) := by
  cases session_label with
  | none =>
    constructor
    · intro hmiss
      simp [organizeBidsOutput, optTruthy, hmiss]
    · intro hhit
      simp [organizeBidsOutput, optTruthy, hhit, List.filterMap]
  | some l =>
    have hl : l ≠ "" := fun hh => hses (by rw [hh])
    constructor
    · intro hmiss
      simp [organizeBidsOutput, optTruthy_some_of_ne l hl, hmiss]
    · intro hhit
      simp [organizeBidsOutput, optTruthy_some_of_ne l hl, hhit, List.filterMap]

/-- A concrete organize environment: every path exists, two stats files. -/
def orgEnvA : OrganizeEnv :=
  { fileExists := fun _ => true, statsGlob := ["aseg.stats", "lh.aparc.stats"] }

theorem organizeBidsOutput_spec_witness :
    (some "01" : Option String) ≠ some "" ∧
    ((orgEnvA.fileExists (pjoin "out/fs"
        (match (some "01" : Option String) with
         | some l => "sub-001" ++ "_ses-" ++ l
         | none => "sub-001")) = false →
      organizeBidsOutput orgEnvA "out" "out/fs" "sub-001" (some "01") = ⟨true, []⟩) ∧
     (orgEnvA.fileExists (pjoin "out/fs"
        (match (some "01" : Option String) with
         | some l => "sub-001" ++ "_ses-" ++ l
         | none => "sub-001")) = true →
      (organizeBidsOutput orgEnvA "out" "out/fs" "sub-001" (some "01")).copies =
        (let sesPart := match (some "01" : Option String) with
          | some l => "_ses-" ++ l
          | none => ""
         let subjDir := match (some "01" : Option String) with
          | some l => pjoin (pjoin "out" "sub-001") ("ses-" ++ l)
          | none => pjoin "out" "sub-001"
         let fsDir := pjoin "out/fs"
          (match (some "01" : Option String) with
           | some l => "sub-001" ++ "_ses-" ++ l
           | none => "sub-001")
         ([("brain.mgz", "_desc-brain_T1w.nii.gz"),
           ("aparc.DKTatlas+aseg.mgz", "_desc-aparcaseg_dseg.nii.gz"),
           ("wmparc.mgz", "_desc-wmparc_dseg.nii.gz")].filterMap (fun p =>
            if orgEnvA.fileExists (pjoin (pjoin fsDir "mri") p.1) then
              some (pjoin (pjoin fsDir "mri") p.1,
                pjoin (pjoin subjDir "anat") ("sub-001" ++ sesPart ++ p.2))
            else none))
         ++ (if orgEnvA.fileExists (pjoin fsDir "stats") then
              orgEnvA.statsGlob.filterMap (fun name =>
                if orgEnvA.fileExists (pjoin (pjoin fsDir "stats") name) then
                  some (pjoin (pjoin fsDir "stats") name,
                    pjoin (pjoin subjDir "stats") ("sub-001" ++ sesPart ++ "_" ++ name))
                else none)
             else [])))) :=
  ⟨by decide, organizeBidsOutput_spec orgEnvA "out" "out/fs" "sub-001" (some "01")
    (by decide)⟩

/-- C5: when a pre-existing NIDM file is discovered, `nidm_conversion` works
on a copy of it placed in the output `nidm_dir` (the copy is skipped only
when source and destination resolve to the same path); an `OSError` during
the copy exits with status 1 before the converter is ever invoked; and when
the copy step succeeds, the converter command references the copied path in
`nidm_dir`, which is a different path from the original whenever the two do
not resolve equal. -/
theorem nidmConversion_copy_protection (env : NidmEnv)
    (nidm_dir freesurfer_dir participant_label : String)
    (mapping : List (String × T1Info)) (bids_session : Option String)
    (nidm_input_dir : Option String) (ef : String)
    (hsel : discoverExistingNidm env nidm_input_dir = some ef)
    (hrefl : ∀ p, env.resolveEq p p = true) :
    (nidmConversion env nidm_dir freesurfer_dir participant_label mapping
      bids_session nidm_input_dir).copiedNidm = some (pjoin nidm_dir (basename ef)) ∧
    (env.resolveEq ef (pjoin nidm_dir (basename ef)) = false →
     env.copyRaises = true →
      (nidmConversion env nidm_dir freesurfer_dir participant_label mapping
        bids_session nidm_input_dir).exitCode = some 1 ∧
      (nidmConversion env nidm_dir freesurfer_dir participant_label mapping
        bids_session nidm_input_dir).converterInvoked = false) ∧
    (env.copyRaises = false →
      (nidmConversion env nidm_dir freesurfer_dir participant_label mapping
        bids_session nidm_input_dir).copyPerformed =
        !env.resolveEq ef (pjoin nidm_dir (basename ef)) ∧
      (nidmConversion env nidm_dir freesurfer_dir participant_label mapping
        bids_session nidm_input_dir).converterInvoked = true ∧
      (nidmConversion env nidm_dir freesurfer_dir participant_label mapping
        bids_session nidm_input_dir).cmd =
        ["python3", "-m", "segstats_jsonld.fs_to_nidm", "-s",
         pjoin freesurfer_dir (nidmFsSubjectId participant_label bids_session),
         "-n", pjoin nidm_dir (basename ef), "-j", "--forcenidm"] ∧
      (env.resolveEq ef (pjoin nidm_dir (basename ef)) = false →
        ef ≠ pjoin nidm_dir (basename ef))) := by
  have hcp : copiedNidmPath env nidm_dir nidm_input_dir =
      some (pjoin nidm_dir (basename ef)) := by
    simp [copiedNidmPath, hsel]
  refine ⟨?_, ?_, ?_⟩
  · rw [nidmConversion_copiedNidm]
    exact hcp
  · intro hres hrai
    simp only [nidmConversion, hsel, hcp, hres, hrai, Bool.not_false, Bool.and_true,
      if_true]
    repeat' constructor
  · intro hrai
    refine ⟨?_, nidmConversion_converterInvoked env nidm_dir freesurfer_dir
      participant_label mapping bids_session nidm_input_dir hrai, ?_, ?_⟩
    · simp only [nidmConversion, hsel, hcp, hrai, Bool.and_false, Bool.not_false,
        Bool.and_true, if_false]
      repeat' split
      all_goals first | rfl | simp_all
    · simp only [nidmConversion, hsel, hcp, hrai, Bool.and_false, Bool.not_false,
        Bool.and_true, if_false]
      repeat' split
      all_goals first | rfl | simp_all
    · intro hres heq
      rw [← heq] at hres
      rw [hrefl ef] at hres
      simp at hres

/-- A concrete NIDM environment in which an input NIDM file is discovered. -/
def nidmEnvB : NidmEnv :=
  { existsPre := fun _ => true, inputGlob := fun _ => [],
    resolveEq := fun a b => a == b, copyRaises := false, preFiles := [],
    converterReturncode := 0, postFiles := ["x.ttl"],
    existsPost := fun _ => true, parse := fun _ => some [2] }

theorem nidmConversion_copy_protection_witness :
    discoverExistingNidm nidmEnvB (some "data/NIDM") =
      some (pjoin "data/NIDM" "nidm.ttl") ∧
    (∀ p, nidmEnvB.resolveEq p p = true) ∧
    ((nidmConversion nidmEnvB "out/nidm" "out/fs" "001" [] none
        (some "data/NIDM")).copiedNidm =
      some (pjoin "out/nidm" (basename (pjoin "data/NIDM" "nidm.ttl"))) ∧
     (nidmEnvB.resolveEq (pjoin "data/NIDM" "nidm.ttl")
        (pjoin "out/nidm" (basename (pjoin "data/NIDM" "nidm.ttl"))) = false →
      nidmEnvB.copyRaises = true →
       (nidmConversion nidmEnvB "out/nidm" "out/fs" "001" [] none
         (some "data/NIDM")).exitCode = some 1 ∧
       (nidmConversion nidmEnvB "out/nidm" "out/fs" "001" [] none
         (some "data/NIDM")).converterInvoked = false) ∧
     (nidmEnvB.copyRaises = false →
       (nidmConversion nidmEnvB "out/nidm" "out/fs" "001" [] none
         (some "data/NIDM")).copyPerformed =
         !nidmEnvB.resolveEq (pjoin "data/NIDM" "nidm.ttl")
           (pjoin "out/nidm" (basename (pjoin "data/NIDM" "nidm.ttl"))) ∧
       (nidmConversion nidmEnvB "out/nidm" "out/fs" "001" [] none
         (some "data/NIDM")).converterInvoked = true ∧
       (nidmConversion nidmEnvB "out/nidm" "out/fs" "001" [] none
         (some "data/NIDM")).cmd =
         ["python3", "-m", "segstats_jsonld.fs_to_nidm", "-s",
          pjoin "out/fs" (nidmFsSubjectId "001" none),
          "-n", pjoin "out/nidm" (basename (pjoin "data/NIDM" "nidm.ttl")), "-j",
          "--forcenidm"] ∧
       (nidmEnvB.resolveEq (pjoin "data/NIDM" "nidm.ttl")
          (pjoin "out/nidm" (basename (pjoin "data/NIDM" "nidm.ttl"))) = false →
         pjoin "data/NIDM" "nidm.ttl" ≠
           pjoin "out/nidm" (basename (pjoin "data/NIDM" "nidm.ttl"))))) :=
  ⟨by decide, fun p => beq_self_eq_true p,
    nidmConversion_copy_protection nidmEnvB "out/nidm" "out/fs" "001" [] none
      (some "data/NIDM") (pjoin "data/NIDM" "nidm.ttl") (by decide)
      (fun p => beq_self_eq_true p)⟩

theorem nidmConversion_rc_exit (env : NidmEnv)
    (nidm_dir freesurfer_dir participant_label : String)
    (mapping : List (String × T1Info)) (bids_session : Option String)
    (nidm_input_dir : Option String) (hrc : env.converterReturncode ≠ 0) :
    (nidmConversion env nidm_dir freesurfer_dir participant_label mapping
      bids_session nidm_input_dir).exitCode = some 1 := by
  simp only [nidmConversion]
  repeat' split
  all_goals rfl

/-- C7: in `process_participant` and `process_session` the NIDM conversion
step runs exactly when `process_subject` returned `True` and `--skip_nidm`
was not given; and whenever the converter subprocess exits with a nonzero
return code, the run exits with status 1. -/
theorem nidm_gating_and_failure (env : AppEnv) (st : WrapperState)
    (bids_dir output_dir participant_label session_label : String)
    (skip_nidm : Bool) :
    ((processParticipant env st bids_dir output_dir participant_label
        skip_nidm).nidmCalled = true ↔
      ((∃ so, (processParticipant env st bids_dir output_dir participant_label
          skip_nidm).subject = some so ∧ so.uncaughtError = false ∧
          so.retval = true) ∧ skip_nidm = false)) ∧
    ((processSession env st bids_dir output_dir participant_label session_label
        skip_nidm).nidmCalled = true ↔
      ((∃ so, (processSession env st bids_dir output_dir participant_label
          session_label skip_nidm).subject = some so ∧ so.uncaughtError = false ∧
          so.retval = true) ∧ skip_nidm = false)) ∧
    (env.nidm.converterReturncode ≠ 0 →
      ((processParticipant env st bids_dir output_dir participant_label
          skip_nidm).nidmCalled = true →
        (processParticipant env st bids_dir output_dir participant_label
          skip_nidm).exitCode = some 1) ∧
      ((processSession env st bids_dir output_dir participant_label session_label
          skip_nidm).nidmCalled = true →
        (processSession env st bids_dir output_dir participant_label session_label
          skip_nidm).exitCode = some 1)) := by
  refine ⟨?_, ?_, ?_⟩
  · simp only [processParticipant]
    repeat' split
    all_goals simp_all
  · simp only [processSession]
    repeat' split
    all_goals simp_all
  · intro hrc
    constructor
    · simp only [processParticipant]
      repeat' split
      all_goals intro hcall
      all_goals
        first
        | exact nidmConversion_rc_exit env.nidm _ _ _ _ _ _ hrc
        | simp_all
    · simp only [processSession]
      repeat' split
      all_goals intro hcall
      all_goals
        first
        | exact nidmConversion_rc_exit env.nidm _ _ _ _ _ _ hrc
        | simp_all

theorem isPrefixOf_append_self (l₁ l₂ : List Char) :
    l₁.isPrefixOf (l₁ ++ l₂) = true := by
  induction l₁ with
  | nil => simp [List.isPrefixOf]
  | cons a t ih => simp [List.isPrefixOf, ih]

theorem pyStartsWith_append_self (p s : String) : pyStartsWith (p ++ s) p = true := by
  unfold pyStartsWith
  rw [String.data_append]
  exact isPrefixOf_append_self p.data s.data

theorem strDrop_append_self (p s : String) : strDrop (p ++ s) p.data.length = s := by
  unfold strDrop
  rw [String.data_append, List.drop_left]

theorem strip_sub (L : String) : strDrop ("sub-" ++ L) 4 = L :=
  strDrop_append_self "sub-" L

theorem strip_ses (S : String) : strDrop ("ses-" ++ S) 4 = S :=
  strDrop_append_self "ses-" S

/-- A concrete app environment whose subject listing contains the literal
string `"sub-x"` — the label that exposes double stripping. -/
def appEnvX : AppEnv :=
  { nidmInputDirExists := false, availableSubjects := ["sub-x"],
    availableSessions := ["01"], subject := subjEnvA, nidm := nidmEnvA }

/-- C8 (counterexample): `process_participant` does not behave identically on
`L` and `"sub-" ++ L` for every label `L`: at `L = "sub-x"` (with `"sub-x"`
the dataset's subject label) the unprefixed call strips `sub-` off the label
itself and fails validation, while the prefixed call succeeds. -/
theorem prefix_insensitivity_counterexample :
    processParticipant appEnvX st0 "bids" "out" "sub-x" false ≠
      processParticipant appEnvX st0 "bids" "out" ("sub-" ++ "sub-x") false := by
  decide

/-- C8 (amended): for every participant label not already starting with
`sub-` and session label not already starting with `ses-`, the prefixed and
unprefixed invocations of `process_participant` and `process_session` are
indistinguishable: the leading prefix is stripped exactly once. -/
theorem prefix_insensitivity (env : AppEnv) (st : WrapperState)
    (bids_dir output_dir L S : String) (skip_nidm : Bool)
    (hL : pyStartsWith L "sub-" = false) (hS : pyStartsWith S "ses-" = false) :
    processParticipant env st bids_dir output_dir ("sub-" ++ L) skip_nidm =
      processParticipant env st bids_dir output_dir L skip_nidm ∧
    processSession env st bids_dir output_dir ("sub-" ++ L) ("ses-" ++ S)
        skip_nidm =
      processSession env st bids_dir output_dir L S skip_nidm := by
  constructor
  · simp only [processParticipant, pyStartsWith_append_self, hL, if_true, if_false,
      strip_sub]
    rfl
  · simp only [processSession, pyStartsWith_append_self, hL, hS, if_true, if_false,
      strip_sub, strip_ses]
    rfl

theorem prefix_insensitivity_witness :
    pyStartsWith "x" "sub-" = false ∧ pyStartsWith "01" "ses-" = false ∧
    (processParticipant appEnvX st0 "bids" "out" ("sub-" ++ "x") false =
       processParticipant appEnvX st0 "bids" "out" "x" false ∧
     processSession appEnvX st0 "bids" "out" ("sub-" ++ "x") ("ses-" ++ "01")
         false =
       processSession appEnvX st0 "bids" "out" "x" "01" false) :=
  ⟨by decide, by decide,
    prefix_insensitivity appEnvX st0 "bids" "out" "x" "01" false (by decide)
      (by decide)⟩

theorem lastIdxOf_eq_none (c : Char) (cs : List Char) (h : c ∉ cs) :
    lastIdxOf c cs = none := by
  induction cs with
  | nil => rfl
  | cons a t ih =>
    rw [List.mem_cons, not_or] at h
    simp [lastIdxOf, ih h.2, Ne.symm h.1]

theorem pySuffix_no_dot (s : String) (h : '.' ∉ s.data) : pySuffix s = "" := by
  simp [pySuffix, lastIdxOf_eq_none '.' s.data h]

theorem pyWithSuffix_no_dot (s sfx : String) (h : '.' ∉ s.data) :
    pyWithSuffix s sfx = s ++ sfx := by
  simp [pyWithSuffix, pySuffix_no_dot s h]

theorem foldl_parse_append (parse : String → Option (List Nat)) (l : List String)
    (init : List Nat) :
    l.foldl (fun g s =>
      match parse s with
      | some triples => g ++ triples
      | none => g) init = init ++ (l.filterMap parse).join := by
  induction l generalizing init with
  | nil => simp
  | cons a t ih =>
    cases h : parse a with
    | none => simp [h, ih]
    | some ts => simp [h, ih]

set_option maxHeartbeats 2000000 in
/-- C1: every run of `nidm_conversion` that reaches the aggregation step
parses each aggregation source — the copied pre-existing NIDM file, if any,
plus every newly created file in `nidm_dir` whose suffix is `.ttl`, `.json`,
`.jsonld` or `.json-ld` — into a single graph, skipping sources that fail to
parse; when the graph is non-empty it is serialized to exactly
`<nidm_dir>/<fs_subject_id>.ttl` (Turtle) and `<nidm_dir>/<fs_subject_id>.jsonld`
(JSON-LD), and when it is empty nothing is serialized. -/
theorem nidm_aggregation_spec (env : NidmEnv)
    (nidm_dir freesurfer_dir participant_label : String)
    (mapping : List (String × T1Info)) (bids_session : Option String)
    (nidm_input_dir : Option String)
    (hcopy : env.copyRaises = false)
    (hrc : env.converterReturncode = 0)
    (hguard : ¬(newNidmOutputs env nidm_dir = [] ∧
      copiedNidmPath env nidm_dir nidm_input_dir = none))
    (hpersist : ∀ cp, copiedNidmPath env nidm_dir nidm_input_dir = some cp →
      env.existsPost cp = true)
    (hdot : '.' ∉ (nidmFsSubjectId participant_label bids_session).data) :
    (nidmConversion env nidm_dir freesurfer_dir participant_label mapping
      bids_session nidm_input_dir).reachedAggregation = true ∧
    (nidmConversion env nidm_dir freesurfer_dir participant_label mapping
      bids_session nidm_input_dir).aggregationSources =
      (copiedNidmPath env nidm_dir nidm_input_dir).toList
        ++ (newNidmOutputs env nidm_dir).filter (fun p =>
          [".ttl", ".json", ".jsonld", ".json-ld"].contains
            (strLower (pySuffix (basename p)))) ∧
    (nidmConversion env nidm_dir freesurfer_dir participant_label mapping
      bids_session nidm_input_dir).graph =
      ((nidmConversion env nidm_dir freesurfer_dir participant_label mapping
        bids_session nidm_input_dir).aggregationSources.filterMap env.parse).join ∧
    (nidmConversion env nidm_dir freesurfer_dir participant_label mapping
      bids_session nidm_input_dir).serialized =
      (if ((nidmConversion env nidm_dir freesurfer_dir participant_label mapping
            bids_session nidm_input_dir).graph).isEmpty then []
       else
        [(pjoin nidm_dir (nidmFsSubjectId participant_label bids_session ++ ".ttl"),
          "turtle"),
         (pjoin nidm_dir (nidmFsSubjectId participant_label bids_session ++ ".jsonld"),
          "json-ld")]) := by
  have hws1 : pyWithSuffix (nidmFsSubjectId participant_label bids_session) ".ttl" =
      nidmFsSubjectId participant_label bids_session ++ ".ttl" :=
    pyWithSuffix_no_dot _ _ hdot
  have hws2 : pyWithSuffix (nidmFsSubjectId participant_label bids_session) ".jsonld" =
      nidmFsSubjectId participant_label bids_session ++ ".jsonld" :=
    pyWithSuffix_no_dot _ _ hdot
  rw [show (fun p => [".ttl", ".json", ".jsonld", ".json-ld"].contains
      (strLower (pySuffix (basename p)))) = aggSuffixOk from rfl]
  rcases hd : discoverExistingNidm env nidm_input_dir with _ | ef
  · have hcpn : copiedNidmPath env nidm_dir nidm_input_dir = none := by
      simp [copiedNidmPath, hd]
    have hnew : (newNidmOutputs env nidm_dir).isEmpty = false := by
      cases h : newNidmOutputs env nidm_dir with
      | nil => exact absurd ⟨h, hcpn⟩ hguard
      | cons a l => rfl
    refine ⟨?_, ?_, ?_, ?_⟩ <;>
    · simp only [nidmConversion, hd, hcpn, hcopy, hrc, hnew, hws1, hws2]
      repeat' split
      all_goals simp_all [foldl_parse_append]
  · have hcp : copiedNidmPath env nidm_dir nidm_input_dir =
        some (pjoin nidm_dir (basename ef)) := by
      simp [copiedNidmPath, hd]
    have hex : env.existsPost (pjoin nidm_dir (basename ef)) = true :=
      hpersist _ hcp
    refine ⟨?_, ?_, ?_, ?_⟩ <;>
    · simp only [nidmConversion, hd, hcp, hcopy, hrc, hex, hws1, hws2]
      repeat' split
      all_goals simp_all [foldl_parse_append]
      all_goals cases hp : env.parse (pjoin nidm_dir (basename ef)) <;> simp_all

theorem nidm_aggregation_spec_witness :
    nidmEnvA.copyRaises = false ∧
    nidmEnvA.converterReturncode = 0 ∧
    ¬(newNidmOutputs nidmEnvA "out/nidm" = [] ∧
      copiedNidmPath nidmEnvA "out/nidm" none = none) ∧
    ('.' ∉ (nidmFsSubjectId "001" none).data) ∧
    ((nidmConversion nidmEnvA "out/nidm" "out/fs" "001" [] none
        none).reachedAggregation = true ∧
     (nidmConversion nidmEnvA "out/nidm" "out/fs" "001" [] none
        none).aggregationSources =
       (copiedNidmPath nidmEnvA "out/nidm" none).toList
         ++ (newNidmOutputs nidmEnvA "out/nidm").filter (fun p =>
           [".ttl", ".json", ".jsonld", ".json-ld"].contains
             (strLower (pySuffix (basename p)))) ∧
     (nidmConversion nidmEnvA "out/nidm" "out/fs" "001" [] none none).graph =
       ((nidmConversion nidmEnvA "out/nidm" "out/fs" "001" [] none
         none).aggregationSources.filterMap nidmEnvA.parse).join ∧
     (nidmConversion nidmEnvA "out/nidm" "out/fs" "001" [] none none).serialized =
       (if ((nidmConversion nidmEnvA "out/nidm" "out/fs" "001" [] none
             none).graph).isEmpty then []
        else
         [(pjoin "out/nidm" (nidmFsSubjectId "001" none ++ ".ttl"), "turtle"),
          (pjoin "out/nidm" (nidmFsSubjectId "001" none ++ ".jsonld"),
           "json-ld")])) :=
  ⟨rfl, rfl, by decide, by decide,
    nidm_aggregation_spec nidmEnvA "out/nidm" "out/fs" "001" [] none none rfl rfl
      (by decide) (fun cp _ => rfl) (by decide)⟩

theorem nidm_gating_and_failure_witness :
    (((processParticipant appEnvX st0 "bids" "out" "x" false).nidmCalled = true ↔
      ((∃ so, (processParticipant appEnvX st0 "bids" "out" "x"
          false).subject = some so ∧ so.uncaughtError = false ∧
          so.retval = true) ∧ false = false)) ∧
    ((processSession appEnvX st0 "bids" "out" "x" "01" false).nidmCalled = true ↔
      ((∃ so, (processSession appEnvX st0 "bids" "out" "x" "01"
          false).subject = some so ∧ so.uncaughtError = false ∧
          so.retval = true) ∧ false = false)) ∧
    (appEnvX.nidm.converterReturncode ≠ 0 →
      ((processParticipant appEnvX st0 "bids" "out" "x" false).nidmCalled = true →
        (processParticipant appEnvX st0 "bids" "out" "x" false).exitCode = some 1) ∧
      ((processSession appEnvX st0 "bids" "out" "x" "01" false).nidmCalled = true →
        (processSession appEnvX st0 "bids" "out" "x" "01"
          false).exitCode = some 1))) :=
  nidm_gating_and_failure appEnvX st0 "bids" "out" "x" "01" false

end FsBidsApp
